import Mathlib

/-!
Shallow embedding of the order-management backend
(src/Backend/src/controllers/orderController.js and the mongoose models
src/Backend/src/models/Order.js, Product.js), together with theorems
checking the natural-language specification against it.

Modelling decisions, all taken from the source:
  * MongoDB ObjectIds are modelled as `Nat`.
  * JavaScript numbers holding prices/amounts are modelled as `Rat`,
    quantities and stock counts as `Int` (the code compares and subtracts
    them as numbers, with no sign check of its own).
  * A MongoDB multi-document transaction (`session.startTransaction` /
    `commitTransaction` / `abortTransaction`) is modelled by running the
    handler body on a session-local copy of the database and installing it
    only on commit; every `throw` path returns the original database,
    which is what `abortTransaction` does.
  * `Order.findByIdAndUpdate` is query middleware in mongoose: it does NOT
    run the document middleware `orderSchema.pre("save")`, so the
    `updatedAt` refresh registered there does not fire on status updates.
  * In `createOrder` the emit room is built from
    `processedItems[0].productId.sellerId`; `processedItems[k].productId`
    holds the raw product ObjectId, and reading `.sellerId` off an
    ObjectId yields `undefined`, which a template literal renders as the
    string "undefined".
-/

namespace OrderMgmt

/-- Order status enum of `orderSchema.status`
(`src/Backend/src/models/Order.js`). -/
inductive OrderStatus
  | pending
  | processing
  | shipped
  | delivered
  | cancelled
deriving DecidableEq, Repr

/-- Payment status enum of `orderSchema.paymentStatus`. -/
inductive PaymentStatus
  | pending
  | paid
  | failed
deriving DecidableEq, Repr

/-- A product document (`src/unnamed/part_000`, the Product model):
id, sellerId, name, price, stock, isActive. -/
structure Product where
  id : Nat
  sellerId : Nat
  name : String
  price : Rat
  stock : Int
  isActive : Bool
deriving DecidableEq, Repr

/-- An order line item (`orderItemSchema`): productId, quantity, price. -/
structure OrderItem where
  productId : Nat
  quantity : Int
  price : Rat
deriving DecidableEq, Repr

/-- An order document (`orderSchema`). `shippingAddress` is opaque to the
core and omitted; `paymentMethod` is kept as the raw string the schema
restricts to the enum `cod | card | upi`. -/
structure Order where
  id : Nat
  userId : Nat
  items : List OrderItem
  totalAmount : Rat
  status : OrderStatus
  paymentMethod : String
  paymentStatus : PaymentStatus
  createdAt : Int
  updatedAt : Int
deriving DecidableEq, Repr

/-- The persistent state the controllers act on: the products and orders
collections. -/
structure DB where
  products : List Product
  orders : List Order
deriving DecidableEq, Repr

/-- One requested line item of the `items` array of a create-order
request body. -/
structure ReqItem where
  productId : Nat
  quantity : Int
deriving DecidableEq, Repr

/-- A create-order request: `req.user._id`, `req.body.items`,
`req.body.paymentMethod` (possibly absent, i.e. `undefined`). -/
structure CreateReq where
  userId : Nat
  items : List ReqItem
  paymentMethod : Option String
deriving DecidableEq, Repr

/-- Failure kinds of `createOrder`; each corresponds to one `throw` (or
rejected promise) site inside the `try` block. -/
inductive OrderError
  | emptyOrder
  | productUnavailable (productId : Nat)
  | insufficientStock (name : String)
  | validationFailed
  | persistenceFailure
deriving DecidableEq, Repr

/-- Failure kinds of `updateOrderStatus`: status outside the enum (400
"Invalid status") or unknown order id (404 "Order not found"). -/
inductive StatusError
  | invalidStatus
  | notFound
deriving DecidableEq, Repr

/-- A socket.io emission: `req.io.to(room).emit(event, ...)`. -/
structure Emit where
  room : String
  event : String
deriving DecidableEq, Repr

/-- Persisting a modified product document with `product.save({ session })`:
every stored document with this id is replaced by the new version. -/
def updateProduct (ps : List Product) (p : Product) : List Product :=
  ps.map fun q => if q.id = p.id then p else q

/-- The item-processing loop of `createOrder` (orderController.js lines
25-49), threading the session-local products, the `totalAmount`
accumulator and the `processedItems` array exactly as the source does:
find the product, fail if missing or inactive, fail if
`product.stock < item.quantity`, otherwise accumulate the item total,
push the snapshot item and decrement the session stock. -/
def processItems : List Product → Rat → List OrderItem → List ReqItem →
    Except OrderError (List Product × Rat × List OrderItem)
  | ps, total, acc, [] => Except.ok (ps, total, acc)
  | ps, total, acc, item :: rest =>
    match ps.find? (fun p => p.id == item.productId) with
    | none => Except.error (OrderError.productUnavailable item.productId)
    | some product =>
      if product.isActive = false then
        Except.error (OrderError.productUnavailable item.productId)
      else if product.stock < item.quantity then
        Except.error (OrderError.insufficientStock product.name)
      else
        processItems
          (updateProduct ps { product with stock := product.stock - item.quantity })
          (total + product.price * (item.quantity : Rat))
          (acc ++ [{ productId := product.id, quantity := item.quantity,
                     price := product.price }])
          rest

/-- The `paymentMethod` enum of `orderSchema`. -/
def validPaymentMethod (pm : String) : Bool :=
  pm == "cod" || pm == "card" || pm == "upi"

/-- Mongoose schema validation run by `Order.create`: each item needs
`quantity >= 1` and `price >= 0`, `totalAmount >= 0`, and `paymentMethod`
must be in the enum. -/
def validateOrder (o : Order) : Bool :=
  (o.items.all fun it => decide (1 ≤ it.quantity) && decide (0 ≤ it.price)) &&
  decide (0 ≤ o.totalAmount) && validPaymentMethod o.paymentMethod

/-- Reading `.sellerId` off a raw product ObjectId, as
`processedItems[0].productId.sellerId` does: an ObjectId has no
`sellerId` property, so the access yields `undefined` (`none`). -/
def objectIdSellerId (_oid : Nat) : Option Nat := none

/-- How a JavaScript template literal renders an optional number:
`undefined` becomes the string "undefined". -/
def jsShow : Option Nat → String
  | none => "undefined"
  | some n => toString n

/-- The room the `new-order` event is emitted to:
`seller-${processedItems[0].productId.sellerId}`. -/
def firstSellerRoom (processedItems : List OrderItem) : String :=
  match processedItems with
  | [] => "seller-" ++ jsShow none
  | it :: _ => "seller-" ++ jsShow (objectIdSellerId it.productId)

/-- The ternary `paymentMethod === "cod" ? "pending" : "paid"` of
`createOrder`: note it reads the raw request value, before the schema
default is applied. -/
def paymentStatusFor (pm : Option String) : PaymentStatus :=
  if pm = some "cod" then PaymentStatus.pending else PaymentStatus.paid

/-- The `createOrder` handler (orderController.js lines 8-93), as a
function from the database, the request, the fresh order id issued by the
store, the current time and a flag saying whether the store accepts the
final `Order.create` write, to the database after the call together with
the result: the created order and its `new-order` emission, or the
failure kind. Every failure path runs `session.abortTransaction()`, so
the database after a failed call is the one before it. -/
def createOrder (db : DB) (req : CreateReq) (orderId : Nat) (now : Int)
    (persistOk : Bool) : DB × Except OrderError (Order × Emit) :=
  if req.items.isEmpty then
    (db, Except.error OrderError.emptyOrder)
  else
    match processItems db.products 0 [] req.items with
    | Except.error e => (db, Except.error e)
    | Except.ok (sessionProducts, totalAmount, processedItems) =>
      let order : Order :=
        { id := orderId
          userId := req.userId
          items := processedItems
          totalAmount := totalAmount
          status := OrderStatus.pending
          paymentMethod := req.paymentMethod.getD "cod"
          paymentStatus := paymentStatusFor req.paymentMethod
          createdAt := now
          updatedAt := now }
      if validateOrder order = false then
        (db, Except.error OrderError.validationFailed)
      else if persistOk = false then
        (db, Except.error OrderError.persistenceFailure)
      else
        ({ products := sessionProducts, orders := db.orders ++ [order] },
         Except.ok (order,
           { room := firstSellerRoom processedItems, event := "new-order" }))

/-- The status strings `updateOrderStatus` accepts (`validStatuses`,
orderController.js lines 178-184). -/
def validStatuses : List String :=
  ["pending", "processing", "shipped", "delivered", "cancelled"]

/-- Decoding a status string into the enum. -/
def parseStatus : String → Option OrderStatus
  | "pending" => some OrderStatus.pending
  | "processing" => some OrderStatus.processing
  | "shipped" => some OrderStatus.shipped
  | "delivered" => some OrderStatus.delivered
  | "cancelled" => some OrderStatus.cancelled
  | _ => none

/-- The `updateOrderStatus` handler (orderController.js lines 175-219):
reject a status outside `validStatuses`; otherwise
`Order.findByIdAndUpdate(id, { status }, { new: true, runValidators: true })`
— which updates only the `status` field (no `pre("save")` hook runs, so
`updatedAt` is untouched) — then emit `order-status-update` to the owning
user's room and, when the actor is an admin, `admin-order-update` to the
admin room. -/
def updateOrderStatus (db : DB) (orderId : Nat) (status : String)
    (actorRole : String) : DB × Except StatusError (Order × List Emit) :=
  if validStatuses.contains status = false then
    (db, Except.error StatusError.invalidStatus)
  else
    match db.orders.find? (fun o => o.id == orderId) with
    | none => (db, Except.error StatusError.notFound)
    | some order =>
      let updated : Order :=
        { order with status := (parseStatus status).getD order.status }
      let emits : List Emit :=
        [{ room := "user-" ++ toString order.userId,
           event := "order-status-update" }] ++
        (if actorRole == "admin" then
           [{ room := "admin", event := "admin-order-update" }]
         else [])
      ({ db with
          orders := db.orders.map fun o => if o.id = orderId then updated else o },
       Except.ok (updated, emits))

/-- Result of `getOrderById`: 404, 403 (no order data disclosed), or the
order. -/
inductive GetOrderResult
  | notFound
  | notAuthorized
  | ok (o : Order)
deriving DecidableEq, Repr

/-- The `getOrderById` handler (orderController.js lines 147-170): look
the order up; 404 when missing; 403 when the requester is not an admin
and not the owning user; otherwise return the order. -/
def getOrderById (db : DB) (orderId : Nat) (reqUserId : Nat)
    (reqRole : String) : GetOrderResult :=
  match db.orders.find? (fun o => o.id == orderId) with
  | none => GetOrderResult.notFound
  | some order =>
    if reqRole != "admin" && order.userId != reqUserId then
      GetOrderResult.notAuthorized
    else
      GetOrderResult.ok order

/-- Stock of the product with the given id, if stored. -/
def stockOf (db : DB) (productId : Nat) : Option Int :=
  (db.products.find? fun p => p.id == productId).map Product.stock

/-- All stored stock counts are non-negative. -/
def AllStocksNonneg (db : DB) : Prop :=
  ∀ p ∈ db.products, 0 ≤ p.stock

/-- One createOrder call description: request, issued order id, time,
persistence outcome. -/
structure Call where
  req : CreateReq
  orderId : Nat
  now : Int
  persistOk : Bool

/-- Running a sequence of createOrder calls, threading the database. -/
def runOrders (db : DB) : List Call → DB
  | [] => db
  | c :: rest => runOrders (createOrder db c.req c.orderId c.now c.persistOk).1 rest

theorem processItems_nil_ok (ps : List Product) (total : Rat) (acc : List OrderItem)
    (psF : List Product) (tot : Rat) (out : List OrderItem)
    (h : processItems ps total acc [] = Except.ok (psF, tot, out)) :
    psF = ps ∧ tot = total ∧ out = acc := by
  simp only [processItems, Except.ok.injEq, Prod.mk.injEq] at h
  exact ⟨h.1.symm, h.2.1.symm, h.2.2.symm⟩

theorem processItems_cons_ok (ps : List Product) (total : Rat) (acc : List OrderItem)
    (item : ReqItem) (rest : List ReqItem) (psF : List Product) (tot : Rat)
    (out : List OrderItem)
    (h : processItems ps total acc (item :: rest) = Except.ok (psF, tot, out)) :
    ∃ product, ps.find? (fun p => p.id == item.productId) = some product ∧
      product.isActive = true ∧ ¬product.stock < item.quantity ∧
      processItems
        (updateProduct ps { product with stock := product.stock - item.quantity })
        (total + product.price * (item.quantity : Rat))
        (acc ++ [{ productId := product.id, quantity := item.quantity,
                   price := product.price }])
        rest = Except.ok (psF, tot, out) := by
  simp only [processItems] at h
  split at h
  · exact absurd h (by simp)
  · rename_i product hfind
    split at h
    · exact absurd h (by simp)
    · rename_i hact
      split at h
      · exact absurd h (by simp)
      · rename_i hstock
        exact ⟨product, hfind, by simpa using hact, hstock, h⟩

end OrderMgmt

namespace OrderMgmt

/-- Price of the product stored under the given id, if any. -/
def findPrice (ps : List Product) (pid : Nat) : Option Rat :=
  (ps.find? fun p => p.id == pid).map Product.price

theorem find?_updateProduct (ps : List Product) (p : Product) (pid : Nat) :
    (updateProduct ps p).find? (fun q => q.id == pid) =
      ((ps.find? fun q => q.id == pid).map fun q => if q.id = p.id then p else q) := by
  unfold updateProduct
  rw [List.find?_map]
  have hfun : ((fun q => q.id == pid) ∘ fun q : Product => if q.id = p.id then p else q)
      = fun q : Product => q.id == pid := by
    funext q
    by_cases hq : q.id = p.id <;> simp [Function.comp, hq]
  rw [hfun]

theorem findPrice_updateProduct (ps : List Product) (p p0 : Product)
    (hfind : (ps.find? fun q => q.id == p.id) = some p0)
    (hprice : p0.price = p.price) (pid : Nat) :
    findPrice (updateProduct ps p) pid = findPrice ps pid := by
  unfold findPrice
  rw [find?_updateProduct, Option.map_map]
  by_cases hpid : pid = p.id
  · rw [hpid, hfind]
    have hid : p0.id = p.id := by
      have h := List.find?_some hfind
      simpa using h
    simp [Function.comp, hid, hprice]
  · cases hq0 : ps.find? fun q => q.id == pid with
    | none => rfl
    | some q0 =>
      have hid : q0.id = pid := by
        have h := List.find?_some hq0
        simpa using h
      have hne : q0.id ≠ p.id := by rw [hid]; exact hpid
      simp [Function.comp, hne]

theorem findPrice_updateProduct_of_found (ps : List Product) (product : Product)
    (pid0 : Nat) (hfind : ps.find? (fun q => q.id == pid0) = some product)
    (s : Int) (pid : Nat) :
    findPrice (updateProduct ps { product with stock := s }) pid = findPrice ps pid := by
  have hid : product.id = pid0 := by simpa using List.find?_some hfind
  refine findPrice_updateProduct ps { product with stock := s } product ?_ rfl pid
  show ps.find? (fun q => q.id == product.id) = some product
  rw [hid]
  exact hfind

theorem processItems_findPrice (items : List ReqItem) :
    ∀ ps total acc psF tot out,
      processItems ps total acc items = Except.ok (psF, tot, out) →
      ∀ pid, findPrice psF pid = findPrice ps pid := by
  induction items with
  | nil =>
    intro ps total acc psF tot out h pid
    obtain ⟨h1, _, _⟩ := processItems_nil_ok _ _ _ _ _ _ h
    rw [h1]
  | cons item rest ih =>
    intro ps total acc psF tot out h pid
    obtain ⟨product, hfind, hact, hstock, hrec⟩ :=
      processItems_cons_ok _ _ _ _ _ _ _ _ h
    rw [ih _ _ _ _ _ _ hrec pid]
    exact findPrice_updateProduct_of_found ps product item.productId hfind _ pid

theorem processItems_total (items : List ReqItem) :
    ∀ ps total acc psF tot out,
      processItems ps total acc items = Except.ok (psF, tot, out) →
      tot + (acc.map fun it => (it.quantity : Rat) * it.price).sum
        = total + (out.map fun it => (it.quantity : Rat) * it.price).sum := by
  induction items with
  | nil =>
    intro ps total acc psF tot out h
    obtain ⟨_, h2, h3⟩ := processItems_nil_ok _ _ _ _ _ _ h
    rw [h2, h3]
  | cons item rest ih =>
    intro ps total acc psF tot out h
    obtain ⟨product, hfind, hact, hstock, hrec⟩ :=
      processItems_cons_ok _ _ _ _ _ _ _ _ h
    have hih := ih _ _ _ _ _ _ hrec
    simp only [List.map_append, List.sum_append, List.map_cons, List.map_nil,
      List.sum_cons, List.sum_nil] at hih
    ring_nf at hih ⊢
    linarith

theorem processItems_quantities (items : List ReqItem) :
    ∀ ps total acc psF tot out,
      processItems ps total acc items = Except.ok (psF, tot, out) →
      out.map OrderItem.quantity
        = acc.map OrderItem.quantity ++ items.map ReqItem.quantity := by
  induction items with
  | nil =>
    intro ps total acc psF tot out h
    obtain ⟨_, _, h3⟩ := processItems_nil_ok _ _ _ _ _ _ h
    simp [h3]
  | cons item rest ih =>
    intro ps total acc psF tot out h
    obtain ⟨product, hfind, hact, hstock, hrec⟩ :=
      processItems_cons_ok _ _ _ _ _ _ _ _ h
    have hih := ih _ _ _ _ _ _ hrec
    simp only [List.map_append, List.map_cons, List.map_nil] at hih
    rw [hih]
    simp

theorem processItems_nonneg (items : List ReqItem) :
    ∀ ps total acc psF tot out,
      processItems ps total acc items = Except.ok (psF, tot, out) →
      (∀ p ∈ ps, 0 ≤ p.stock) → ∀ p ∈ psF, 0 ≤ p.stock := by
  induction items with
  | nil =>
    intro ps total acc psF tot out h hps
    obtain ⟨h1, _, _⟩ := processItems_nil_ok _ _ _ _ _ _ h
    rw [h1]
    exact hps
  | cons item rest ih =>
    intro ps total acc psF tot out h hps
    obtain ⟨product, hfind, hact, hstock, hrec⟩ :=
      processItems_cons_ok _ _ _ _ _ _ _ _ h
    refine ih _ _ _ _ _ _ hrec ?_
    intro q hq
    simp only [updateProduct, List.mem_map] at hq
    obtain ⟨r, hr, hrq⟩ := hq
    subst hrq
    by_cases hcase : r.id = Product.id { product with stock := product.stock - item.quantity }
    · rw [if_pos hcase]
      show 0 ≤ product.stock - item.quantity
      omega
    · rw [if_neg hcase]
      exact hps r hr

theorem processItems_item_prices (items : List ReqItem) :
    ∀ ps total acc psF tot out,
      processItems ps total acc items = Except.ok (psF, tot, out) →
      (∀ it ∈ acc, findPrice ps it.productId = some it.price) →
      ∀ it ∈ out, findPrice ps it.productId = some it.price := by
  induction items with
  | nil =>
    intro ps total acc psF tot out h hacc
    obtain ⟨_, _, h3⟩ := processItems_nil_ok _ _ _ _ _ _ h
    rw [h3]
    exact hacc
  | cons item rest ih =>
    intro ps total acc psF tot out h hacc
    obtain ⟨product, hfind, hact, hstock, hrec⟩ :=
      processItems_cons_ok _ _ _ _ _ _ _ _ h
    have hid : product.id = item.productId := by simpa using List.find?_some hfind
    have hstate : ∀ pid,
        findPrice (updateProduct ps { product with stock := product.stock - item.quantity }) pid
          = findPrice ps pid :=
      findPrice_updateProduct_of_found ps product item.productId hfind _
    have hacc2 : ∀ it2 ∈ acc ++ [OrderItem.mk product.id item.quantity product.price],
        findPrice (updateProduct ps { product with stock := product.stock - item.quantity })
          it2.productId = some it2.price := by
      intro it2 hit2
      rcases List.mem_append.mp hit2 with h1 | h2
      · rw [hstate]
        exact hacc it2 h1
      · have heq : it2 = OrderItem.mk product.id item.quantity product.price := by
          simpa using h2
        subst heq
        rw [hstate]
        show findPrice ps product.id = some product.price
        unfold findPrice
        rw [hid, hfind]
        rfl
    intro it hit
    rw [← hstate it.productId]
    exact ih _ _ _ _ _ _ hrec hacc2 it hit

theorem createOrder_error_inv (db : DB) (req : CreateReq) (orderId : Nat) (now : Int)
    (persistOk : Bool) (dbF : DB) (e : OrderError)
    (h : createOrder db req orderId now persistOk = (dbF, Except.error e)) :
    dbF = db := by
  simp only [createOrder] at h
  split at h
  · cases h
    rfl
  · split at h
    · cases h
      rfl
    · split at h
      · cases h
        rfl
      · split at h
        · cases h
          rfl
        · simp at h

theorem createOrder_ok_inv (db : DB) (req : CreateReq) (orderId : Nat) (now : Int)
    (persistOk : Bool) (dbF : DB) (o : Order) (em : Emit)
    (h : createOrder db req orderId now persistOk = (dbF, Except.ok (o, em))) :
    ∃ sessionProducts tot processed,
      processItems db.products 0 [] req.items = Except.ok (sessionProducts, tot, processed) ∧
      o = { id := orderId, userId := req.userId, items := processed, totalAmount := tot,
            status := OrderStatus.pending, paymentMethod := req.paymentMethod.getD "cod",
            paymentStatus := paymentStatusFor req.paymentMethod,
            createdAt := now, updatedAt := now } ∧
      validateOrder o = true ∧ persistOk = true ∧
      dbF = { products := sessionProducts, orders := db.orders ++ [o] } ∧
      em = { room := firstSellerRoom processed, event := "new-order" } := by
  simp only [createOrder] at h
  split at h
  · simp at h
  · split at h
    · simp at h
    · rename_i sessionProducts tot processed hproc
      split at h
      · simp at h
      · split at h
        · simp at h
        · rename_i hvalid hpersist
          simp only [Prod.mk.injEq, Except.ok.injEq] at h
          obtain ⟨hdb, ho, hem⟩ := h
          subst ho
          refine ⟨sessionProducts, tot, processed, hproc, rfl, ?_, ?_, hdb.symm, hem.symm⟩
          · simpa using hvalid
          · simpa using hpersist

/-- Example product used by the concrete witnesses and counterexamples. -/
def exProduct : Product :=
  { id := 5, sellerId := 7, name := "Widget", price := 10, stock := 5, isActive := true }

/-- Example database holding just `exProduct`. -/
def exDB : DB := { products := [exProduct], orders := [] }

/-- Example create request: two units of product 5, cash on delivery. -/
def exReq : CreateReq :=
  { userId := 2, items := [{ productId := 5, quantity := 2 }], paymentMethod := some "cod" }

/-- Example stored order already in the terminal state `delivered`. -/
def exOrderDelivered : Order :=
  { id := 50, userId := 2, items := [{ productId := 5, quantity := 2, price := 10 }],
    totalAmount := 20, status := OrderStatus.delivered, paymentMethod := "cod",
    paymentStatus := PaymentStatus.pending, createdAt := 0, updatedAt := 0 }

/-- Example database holding the delivered order. -/
def exDBDelivered : DB := { products := [exProduct], orders := [exOrderDelivered] }

/-- Example stored order still `pending`, last touched at time 3. -/
def exOrderPending : Order :=
  { exOrderDelivered with status := OrderStatus.pending, updatedAt := 3 }

/-- Example database holding the pending order. -/
def exDBPending : DB := { products := [exProduct], orders := [exOrderPending] }

/-- Example create request with a negative quantity. -/
def exReqNeg : CreateReq :=
  { userId := 2, items := [{ productId := 5, quantity := -3 }], paymentMethod := some "cod" }

/-- Example create request with a zero quantity. -/
def exReqZero : CreateReq :=
  { userId := 2, items := [{ productId := 5, quantity := 0 }], paymentMethod := some "cod" }

/-- Example create request with an empty cart. -/
def exReqEmpty : CreateReq := { userId := 2, items := [], paymentMethod := some "cod" }

/-- Claim C1 counterexample: `updateOrderStatus` moves the delivered order 50
to `cancelled` and reports success — a transition out of a terminal state is
neither rejected as InvalidTransition nor does it leave the status
unchanged, contrary to the claim. -/
theorem c1_counterexample :
    (updateOrderStatus exDBDelivered 50 "cancelled" "admin").2 =
      Except.ok ({ exOrderDelivered with status := OrderStatus.cancelled },
        [{ room := "user-2", event := "order-status-update" },
         { room := "admin", event := "admin-order-update" }]) ∧
    (updateOrderStatus exDBDelivered 50 "cancelled" "admin").1.orders.map Order.status
      = [OrderStatus.cancelled] := ⟨rfl, rfl⟩

/-- Claim C1 (amended): `updateOrderStatus` enforces no transition table.
Any target status in the `validStatuses` enum list is accepted on any
existing order, whatever its current status — including the terminal
states `delivered` and `cancelled` — and the order's status simply becomes
the target; only a target string outside the list is rejected
("Invalid status"), leaving the database unchanged. -/
theorem c1_no_transition_table (db : DB) (orderId : Nat) (st actorRole : String) :
    (validStatuses.contains st = false →
      updateOrderStatus db orderId st actorRole =
        (db, Except.error StatusError.invalidStatus)) ∧
    (validStatuses.contains st = true →
      ∀ o, db.orders.find? (fun x => x.id == orderId) = some o →
        (updateOrderStatus db orderId st actorRole).2 =
          Except.ok ({ o with status := (parseStatus st).getD o.status },
            [{ room := "user-" ++ toString o.userId, event := "order-status-update" }] ++
            (if actorRole == "admin" then
               [{ room := "admin", event := "admin-order-update" }] else []))) := by
  constructor
  · intro hst
    unfold updateOrderStatus
    rw [hst, if_pos rfl]
  · intro hst o hfind
    unfold updateOrderStatus
    rw [hst, if_neg (by simp), hfind]

/-- Claim C1 witness: the amended theorem applied to the delivered order 50
with target `cancelled`: the listed status is accepted and installed. -/
theorem c1_witness :
    (updateOrderStatus exDBDelivered 50 "cancelled" "admin").2 =
      Except.ok ({ exOrderDelivered with
          status := (parseStatus "cancelled").getD exOrderDelivered.status },
        [{ room := "user-" ++ toString exOrderDelivered.userId,
           event := "order-status-update" }] ++
        (if "admin" == "admin" then
           [{ room := "admin", event := "admin-order-update" }] else [])) :=
  (c1_no_transition_table exDBDelivered 50 "cancelled" "admin").2 (by decide)
    exOrderDelivered rfl

/-- Claim C7: a successful status update does not refresh `updatedAt`.
`findByIdAndUpdate` writes only the `status` field and bypasses the
`pre("save")` hook of the Order schema, so after the successful
pending → processing transition of order 50 the stored `updatedAt` is
still its old value 3, not the transition time. -/
theorem c7_updatedAt_not_refreshed :
    (updateOrderStatus exDBPending 50 "processing" "admin").1.orders.map Order.status
      = [OrderStatus.processing] ∧
    (updateOrderStatus exDBPending 50 "processing" "admin").1.orders.map Order.updatedAt
      = exDBPending.orders.map Order.updatedAt := ⟨rfl, rfl⟩

/-- Claim C2: every failed `createOrder` call — whatever the failure kind:
empty order, unavailable product, insufficient stock, schema validation or
persistence failure — leaves every product's stock exactly as it was
before the call: the abort path restores the pre-call database, so no
partial decrement survives. -/
theorem c2_failed_createOrder_preserves_stock (db : DB) (req : CreateReq)
    (orderId : Nat) (now : Int) (persistOk : Bool) (e : OrderError)
    (h : (createOrder db req orderId now persistOk).2 = Except.error e) :
    ∀ pid, stockOf (createOrder db req orderId now persistOk).1 pid = stockOf db pid := by
  have hpair : createOrder db req orderId now persistOk
      = ((createOrder db req orderId now persistOk).1, Except.error e) := by
    rw [← h]
  have hdb := createOrder_error_inv _ _ _ _ _ _ _ hpair
  intro pid
  rw [hdb]

/-- Claim C2 witness: the empty-cart call fails with EmptyOrder and the
stock of product 5 afterwards equals its value before. -/
theorem c2_witness :
    (createOrder exDB exReqEmpty 100 0 true).2 = Except.error OrderError.emptyOrder ∧
    stockOf (createOrder exDB exReqEmpty 100 0 true).1 5 = stockOf exDB 5 :=
  ⟨rfl, c2_failed_createOrder_preserves_stock exDB exReqEmpty 100 0 true
    OrderError.emptyOrder rfl 5⟩

/-- Claim C4 counterexample: a line item with quantity -3 is not rejected
before the reservation step. The item loop accepts it and performs the
session stock update (stock 5 becomes 8); the call is rejected only
afterwards, by schema validation at `Order.create` — not "before any
reservation is attempted" as the claim states. -/
theorem c4_counterexample :
    processItems exDB.products 0 [] exReqNeg.items =
      Except.ok ([{ id := 5, sellerId := 7, name := "Widget", price := 10,
                    stock := 8, isActive := true }], -30,
        [{ productId := 5, quantity := -3, price := 10 }]) ∧
    (createOrder exDB exReqNeg 100 0 true).2 = Except.error OrderError.validationFailed :=
  ⟨by with_unfolding_all rfl, by with_unfolding_all rfl⟩

/-- Claim C4 (amended): an empty item list is rejected up front
(EmptyOrder) with the database untouched; a line item of quantity below 1
is not rejected before the reservation loop runs, but the call still
always fails — at the latest at `Order.create` schema validation — and the
transaction abort leaves the database, hence every product's stock,
unchanged. -/
theorem c4_validation_rejection (db : DB) (req : CreateReq) (orderId : Nat)
    (now : Int) (persistOk : Bool) :
    (req.items = [] →
      createOrder db req orderId now persistOk =
        (db, Except.error OrderError.emptyOrder)) ∧
    ((∃ it ∈ req.items, it.quantity < 1) →
      (∃ e, (createOrder db req orderId now persistOk).2 = Except.error e) ∧
      (createOrder db req orderId now persistOk).1 = db) := by
  constructor
  · intro hempty
    unfold createOrder
    rw [hempty]
    rfl
  · rintro ⟨it, hmem, hlt⟩
    cases hres : (createOrder db req orderId now persistOk).2 with
    | error e =>
      have hpair : createOrder db req orderId now persistOk
          = ((createOrder db req orderId now persistOk).1, Except.error e) := by
        rw [← hres]
      exact ⟨⟨e, rfl⟩, createOrder_error_inv _ _ _ _ _ _ _ hpair⟩
    | ok oem =>
      exfalso
      obtain ⟨o, em⟩ := oem
      have hpair : createOrder db req orderId now persistOk
          = ((createOrder db req orderId now persistOk).1, Except.ok (o, em)) := by
        rw [← hres]
      obtain ⟨sp, tot, processed, hproc, ho, hvalid, _, _, _⟩ :=
        createOrder_ok_inv _ _ _ _ _ _ _ _ hpair
      have hq := processItems_quantities _ _ _ _ _ _ _ hproc
      simp only [List.map_nil, List.nil_append] at hq
      have hmemq : it.quantity ∈ processed.map OrderItem.quantity := by
        rw [hq]
        exact List.mem_map_of_mem ReqItem.quantity hmem
      obtain ⟨oit, hoit, hoitq⟩ := List.mem_map.mp hmemq
      have hitems : o.items = processed := by rw [ho]
      rw [validateOrder] at hvalid
      simp only [Bool.and_eq_true, List.all_eq_true, decide_eq_true_eq] at hvalid
      obtain ⟨⟨hall, _⟩, _⟩ := hvalid
      have hge := (hall oit (by rw [hitems]; exact hoit)).1
      omega

/-- Claim C4 witness: the amended theorem applied to the zero-quantity
request: the call fails and the database is unchanged. -/
theorem c4_witness :
    (∃ e, (createOrder exDB exReqZero 100 0 true).2 = Except.error e) ∧
    (createOrder exDB exReqZero 100 0 true).1 = exDB :=
  (c4_validation_rejection exDB exReqZero 100 0 true).2
    ⟨{ productId := 5, quantity := 0 }, by decide, by decide⟩

/-- Claim C5: for every successful `createOrder` call, the stored
`totalAmount` equals exactly the sum over the stored line items of
quantity times the captured price, and each stored line item's price is
the product's price at reservation time — which, since the loop never
mutates a price, is the price in the pre-call database. -/
theorem c5_totalAmount_exact (db : DB) (req : CreateReq) (orderId : Nat)
    (now : Int) (persistOk : Bool) (dbF : DB) (o : Order) (em : Emit)
    (h : createOrder db req orderId now persistOk = (dbF, Except.ok (o, em))) :
    o.totalAmount = (o.items.map fun it => (it.quantity : Rat) * it.price).sum ∧
    ∀ it ∈ o.items, findPrice db.products it.productId = some it.price := by
  obtain ⟨sp, tot, processed, hproc, ho, _, _, _, _⟩ :=
    createOrder_ok_inv _ _ _ _ _ _ _ _ h
  subst ho
  constructor
  · have htot := processItems_total _ _ _ _ _ _ _ hproc
    simpa using htot
  · intro it hit
    refine processItems_item_prices _ _ _ _ _ _ _ hproc ?_ it hit
    intro it2 h2
    exact absurd h2 (List.not_mem_nil it2)

/-- Example order produced by the successful `exReq` call. -/
def exOrderCreated : Order :=
  { id := 100, userId := 2, items := [{ productId := 5, quantity := 2, price := 10 }],
    totalAmount := 20, status := OrderStatus.pending, paymentMethod := "cod",
    paymentStatus := PaymentStatus.pending, createdAt := 0, updatedAt := 0 }

/-- Example database after the successful `exReq` call: stock 5 → 3 and
the new order appended. -/
def exDBAfter : DB :=
  { products := [{ id := 5, sellerId := 7, name := "Widget", price := 10,
                   stock := 3, isActive := true }],
    orders := [exOrderCreated] }

/-- Claim C5 witness: the theorem applied to the concrete successful call
(2 × price 10): the stored total is the item sum, and the single item's
captured price is the pre-call price of product 5. -/
theorem c5_witness :
    exOrderCreated.totalAmount
      = (exOrderCreated.items.map fun it => (it.quantity : Rat) * it.price).sum ∧
    findPrice exDB.products 5 = some 10 :=
  ⟨(c5_totalAmount_exact exDB exReq 100 0 true exDBAfter exOrderCreated
      { room := "seller-undefined", event := "new-order" }
      (by with_unfolding_all rfl)).1,
   (c5_totalAmount_exact exDB exReq 100 0 true exDBAfter exOrderCreated
      { room := "seller-undefined", event := "new-order" }
      (by with_unfolding_all rfl)).2
     { productId := 5, quantity := 2, price := 10 } (by simp [exOrderCreated])⟩

/-- Claim C6: starting from a database in which every product's stock is
non-negative, any sequence of `createOrder` calls keeps every stock
non-negative: the loop decrements only when `stock ≥ quantity` holds, and
every failed call rolls back to the pre-call state. -/
theorem c6_stock_never_negative (db : DB) (calls : List Call)
    (h : AllStocksNonneg db) : AllStocksNonneg (runOrders db calls) := by
  induction calls generalizing db with
  | nil => exact h
  | cons c rest ih =>
    refine ih _ ?_
    cases hres : (createOrder db c.req c.orderId c.now c.persistOk).2 with
    | error e =>
      have hpair : createOrder db c.req c.orderId c.now c.persistOk
          = ((createOrder db c.req c.orderId c.now c.persistOk).1, Except.error e) := by
        rw [← hres]
      rw [createOrder_error_inv _ _ _ _ _ _ _ hpair]
      exact h
    | ok oem =>
      obtain ⟨o, em⟩ := oem
      have hpair : createOrder db c.req c.orderId c.now c.persistOk
          = ((createOrder db c.req c.orderId c.now c.persistOk).1, Except.ok (o, em)) := by
        rw [← hres]
      obtain ⟨sp, tot, processed, hproc, _, _, _, hdbF, _⟩ :=
        createOrder_ok_inv _ _ _ _ _ _ _ _ hpair
      rw [hdbF]
      intro p hp
      exact processItems_nonneg _ _ _ _ _ _ _ hproc h p hp

/-- Claim C6 witness: the theorem applied to the concrete database (stock
5 ≥ 0) and one successful call. -/
theorem c6_witness :
    AllStocksNonneg (runOrders exDB
      [{ req := exReq, orderId := 100, now := 0, persistOk := true }]) :=
  c6_stock_never_negative exDB
    [{ req := exReq, orderId := 100, now := 0, persistOk := true }]
    (by unfold AllStocksNonneg; decide)

/-- Room of the `new-order` emission of a successful result, if any. -/
def emitRoomOf : Except OrderError (Order × Emit) → Option String
  | Except.ok (_, em) => some em.room
  | Except.error _ => none

/-- Modelled from the spec: §4.2 step 6 — "emit a `new-order` event
(seller-scoped, derived from the first line item's owning seller)". The
room of the actual owning seller of the first processed item's product,
looked up in the database; the code under src/ instead reads `.sellerId`
off the raw ObjectId. -/
def intendedSellerRoom (db : DB) (processed : List OrderItem) : String :=
  match processed with
  | [] => "seller-" ++ jsShow none
  | it :: _ =>
    "seller-" ++
      jsShow ((db.products.find? fun p => p.id == it.productId).map Product.sellerId)

/-- Claim C8: at the concrete successful order for product 5, owned by
seller 7, the code emits `new-order` to the room "seller-undefined" —
`processedItems[0].productId` is the raw ObjectId and its `.sellerId` is
undefined — and not to the owning seller's room "seller-7" that the claim
(and the spec's intended behaviour) describes. -/
theorem c8_emits_to_undefined_room :
    emitRoomOf (createOrder exDB exReq 100 0 true).2 = some "seller-undefined" ∧
    intendedSellerRoom exDB [{ productId := 5, quantity := 2, price := 10 }]
      = "seller-7" ∧
    "seller-undefined" ≠ "seller-7" :=
  ⟨by with_unfolding_all rfl, rfl, by decide⟩

/-- Claim C9: every successfully created order has status `pending`, and
paymentStatus `pending` exactly when the request's payment method is
"cod", `paid` otherwise. -/
theorem c9_initial_statuses (db : DB) (req : CreateReq) (orderId : Nat)
    (now : Int) (persistOk : Bool) (dbF : DB) (o : Order) (em : Emit)
    (h : createOrder db req orderId now persistOk = (dbF, Except.ok (o, em))) :
    o.status = OrderStatus.pending ∧
    o.paymentStatus = (if req.paymentMethod = some "cod" then PaymentStatus.pending
                       else PaymentStatus.paid) := by
  obtain ⟨sp, tot, processed, hproc, ho, _, _, _, _⟩ :=
    createOrder_ok_inv _ _ _ _ _ _ _ _ h
  subst ho
  exact ⟨rfl, rfl⟩

/-- Claim C9 witness: the theorem applied to the concrete "cod" call:
status pending, paymentStatus pending. -/
theorem c9_witness :
    exOrderCreated.status = OrderStatus.pending ∧
    exOrderCreated.paymentStatus
      = (if exReq.paymentMethod = some "cod" then PaymentStatus.pending
         else PaymentStatus.paid) :=
  c9_initial_statuses exDB exReq 100 0 true exDBAfter exOrderCreated
    { room := "seller-undefined", event := "new-order" } (by with_unfolding_all rfl)

/-- Claim C10: for an existing order, a requester who is neither an admin
nor the owning user receives the authorization failure (403) and no order
data; an admin or the owning user receives the order. -/
theorem c10_get_order_access (db : DB) (orderId reqUserId : Nat)
    (reqRole : String) (o : Order)
    (hfind : db.orders.find? (fun x => x.id == orderId) = some o) :
    ((reqRole = "admin" ∨ o.userId = reqUserId) →
      getOrderById db orderId reqUserId reqRole = GetOrderResult.ok o) ∧
    (reqRole ≠ "admin" ∧ o.userId ≠ reqUserId →
      getOrderById db orderId reqUserId reqRole = GetOrderResult.notAuthorized) := by
  unfold getOrderById
  rw [hfind]
  constructor
  · rintro (hrole | huser)
    · simp [hrole]
    · simp [huser]
  · rintro ⟨hrole, huser⟩
    simp [hrole, huser]

/-- Claim C10 witness: the theorem applied to the stored order 50 owned by
user 2: requester 3 with role "customer" is refused. -/
theorem c10_witness :
    getOrderById exDBDelivered 50 3 "customer" = GetOrderResult.notAuthorized :=
  (c10_get_order_access exDBDelivered 50 3 "customer" exOrderDelivered rfl).2
    ⟨by decide, by decide⟩

end OrderMgmt
